import Mathlib

/-!
Verification of the course-registration core of `Course.py`.

The Python classes `Course`, `Student`, `Registration` and the facade
`RegistrationSystem` are shallowly embedded as Lean structures.  Python
objects live on a heap and are mutated in place through aliased references;
we model this with explicit identity keys: every `Registration` object gets
a numeric identity (`Nat`, the successor of the module-level
`_registration_counter`), and the lists `Student._enrollments`,
`Course._enrolled_students` and `RegistrationSystem._registrations` hold
those identities.  Students and courses are keyed by the ids under which
the `RegistrationSystem` dictionaries store them.  Association lists with
first-match lookup and in-place update play the role of the object heap.
Immutable fields read through a reference (`registration.course.credits`,
`registration.course.course_code`, `prereq.name`) are copied into the
referring record, which is sound because `Course.course_code`, `.credits`
and `.name` are never written after construction.
-/

namespace CourseReg

/-- `CourseStatus` enumeration from `Course.py`. -/
inductive CourseStatus where
  | OPEN
  | FULL
  | CLOSED
deriving DecidableEq, Repr

/-- `Grade` enumeration from `Course.py`. -/
inductive Grade where
  | A_PLUS
  | A
  | A_MINUS
  | B_PLUS
  | B
  | B_MINUS
  | C_PLUS
  | C
  | C_MINUS
  | D
  | F
  | INCOMPLETE
  | WITHDRAWAL
  | NOT_GRADED
deriving DecidableEq, Repr

/-- A `Registration` object (`Course.py`, class `Registration`).
`course_code` and `course_credits` are the immutable fields of the
referenced `Course` object (`self._course`); `status` is the Python string
field, `"Active"` or `"Dropped"`. -/
structure Registration where
  student_id : String
  course_code : String
  course_credits : Nat
  semester : String
  grade : Option Grade
  status : String
deriving DecidableEq, Repr

/-- The immutable fields of a prerequisite `Course` reference that
`register_student_for_course` reads (`prereq.course_code`, `prereq.name`). -/
structure Prereq where
  course_code : String
  name : String
deriving DecidableEq, Repr

/-- A `Course` object (`Course.py`, class `Course`); `enrolled_students`
holds the identities of the `Registration` objects in
`self._enrolled_students`. -/
structure Course where
  course_code : String
  name : String
  credits : Nat
  max_capacity : Nat
  status : CourseStatus
  enrolled_students : List Nat
  prerequisites : List Prereq
deriving DecidableEq, Repr

/-- A `Student` object (`Course.py`, class `Student`); `enrollments` holds
the identities of the `Registration` objects in `self._enrollments`. -/
structure Student where
  user_id : String
  enrollments : List Nat
  total_credits : Int
deriving DecidableEq, Repr

/-- Association-list lookup: first entry whose key matches (models reading
a reference / a `dict` entry). -/
def alookup {κ α : Type} [BEq κ] (l : List (κ × α)) (k : κ) : Option α :=
  (l.find? (fun p => p.1 == k)).map (fun p => p.2)

/-- Association-list update: replace the value stored under `k` (models an
in-place mutation of the object registered under `k`). -/
def aupdate {κ α : Type} [BEq κ] (l : List (κ × α)) (k : κ) (v : α) :
    List (κ × α) :=
  l.map (fun p => if p.1 == k then (k, v) else p)

/-- `Course.get_current_enrollment`: `len(self._enrolled_students)`. -/
def Course.get_current_enrollment (c : Course) : Nat :=
  c.enrolled_students.length

/-- `Course.is_full`: `self.get_current_enrollment() >= self._max_capacity`. -/
def Course.is_full (c : Course) : Bool :=
  decide (c.max_capacity ≤ c.get_current_enrollment)

/-- `Course.enroll_student`: refuse when CLOSED; when already full, mark the
course FULL and refuse; otherwise append the registration and mark the
course FULL when the new count reaches capacity.  Returns the mutated
course and the Python return value. -/
def Course.enroll_student (c : Course) (rid : Nat) : Course × Bool :=
  if c.status = CourseStatus.CLOSED then (c, false)
  else if c.is_full then ({ c with status := CourseStatus.FULL }, false)
  else
    let c1 := { c with enrolled_students := c.enrolled_students ++ [rid] }
    if c1.is_full then ({ c1 with status := CourseStatus.FULL }, true)
    else (c1, true)

/-- `Course.drop_student`: remove the registration when present
(`list.remove` drops the first occurrence) and revert FULL to OPEN when the
course is no longer full. -/
def Course.drop_student (c : Course) (rid : Nat) : Course :=
  if rid ∈ c.enrolled_students then
    let c1 := { c with enrolled_students := c.enrolled_students.erase rid }
    if c1.status = CourseStatus.FULL ∧ ¬ c1.is_full then
      { c1 with status := CourseStatus.OPEN }
    else c1
  else c

/-- `Course.update_status`: the explicit state-chart recomputation. -/
def Course.update_status (c : Course) : Course :=
  if c.status = CourseStatus.CLOSED then c
  else if c.is_full then { c with status := CourseStatus.FULL }
  else { c with status := CourseStatus.OPEN }

/-- `Student.enroll_course`: append the registration when absent and add
`registration.course.credits` to the total. -/
def Student.enroll_course (st : Student) (rid : Nat) (r : Registration) :
    Student :=
  if rid ∈ st.enrollments then st
  else
    { st with
      enrollments := st.enrollments ++ [rid]
      total_credits := st.total_credits + r.course_credits }

/-- `Student.drop_course`: remove the registration when present and
subtract `registration.course.credits` from the total. -/
def Student.drop_course (st : Student) (rid : Nat) (r : Registration) :
    Student :=
  if rid ∈ st.enrollments then
    { st with
      enrollments := st.enrollments.erase rid
      total_credits := st.total_credits - r.course_credits }
  else st

/-- `Registration.drop`: `self._status = "Dropped"; self._grade = WITHDRAWAL`. -/
def Registration.drop (r : Registration) : Registration :=
  { r with status := "Dropped", grade := some Grade.WITHDRAWAL }

/-- `Registration.assign_grade`: `self._grade = grade`. -/
def Registration.set_grade (r : Registration) (g : Grade) : Registration :=
  { r with grade := some g }

/-- The mutable state of a `RegistrationSystem` together with the heap of
`Registration` objects.  `next_rid` is the identity the next constructed
`Registration` object receives (the successor of the module-level
`Registration._registration_counter`). -/
structure SysState where
  students : List (String × Student)
  courses : List (String × Course)
  reg_heap : List (Nat × Registration)
  registrations : List Nat
  next_rid : Nat
deriving DecidableEq, Repr

/-- The body of the duplicate-enrollment scan in
`register_student_for_course`: does `rid` resolve to a registration with
`reg.course.course_code == course.course_code and reg.status == "Active"`? -/
def regActiveFor (s : SysState) (code : String) (rid : Nat) : Bool :=
  match alookup s.reg_heap rid with
  | some r => r.course_code == code && r.status == "Active"
  | none => false

/-- `any reg in student.get_enrollments() matching the duplicate test`. -/
def hasActiveReg (s : SysState) (st : Student) (code : String) : Bool :=
  st.enrollments.any (regActiveFor s code)

/-- The set comprehension `student_completed_courses` of
`register_student_for_course`: course codes of the student's registrations
whose grade is set and is not F, INCOMPLETE or WITHDRAWAL. -/
def completedCourseCodes (s : SysState) (st : Student) : List String :=
  st.enrollments.filterMap (fun rid =>
    match alookup s.reg_heap rid with
    | some r =>
      match r.grade with
      | some g =>
        if g = Grade.F ∨ g = Grade.INCOMPLETE ∨ g = Grade.WITHDRAWAL then none
        else some r.course_code
      | none => none
    | none => none)

/-- The prerequisite loop of `register_student_for_course`: the first
prerequisite whose course code is not in `student_completed_courses`. -/
def firstUnmetPrereq (s : SysState) (st : Student) (c : Course) :
    Option Prereq :=
  c.prerequisites.find?
    (fun p => ! (completedCourseCodes s st).contains p.course_code)

/-- The registration-finding loop of `RegistrationSystem.drop_course`:
first enrollment of the student whose registration matches the course code
and has status `"Active"`, together with the registration object. -/
def findDropReg (s : SysState) (st : Student) (code : String) :
    Option (Nat × Registration) :=
  st.enrollments.findSome? (fun rid =>
    match alookup s.reg_heap rid with
    | some r =>
      if r.course_code = code ∧ r.status = "Active" then some (rid, r)
      else none
    | none => none)

/-- The registration-finding loop of `RegistrationSystem.assign_grade`:
first enrollment matching the course code, with no condition on the
registration's status. -/
def findGradeReg (s : SysState) (st : Student) (code : String) :
    Option (Nat × Registration) :=
  st.enrollments.findSome? (fun rid =>
    match alookup s.reg_heap rid with
    | some r => if r.course_code = code then some (rid, r) else none
    | none => none)

/-- `RegistrationSystem.register_student_for_course`, acting on the system
state through the identities of the student and course objects passed in.
Calls whose arguments do not resolve leave the state unchanged. -/
def RegistrationSystem.register_student_for_course (s : SysState)
    (sid ccode sem : String) : SysState × Bool × String :=
  match alookup s.students sid, alookup s.courses ccode with
  | some st, some c =>
    if c.status = CourseStatus.CLOSED then
      (s, false, "Course is closed for registration")
    else if c.status = CourseStatus.FULL then
      (s, false, "Course is full")
    else if hasActiveReg s st c.course_code then
      (s, false, "Already enrolled in this course")
    else
      match firstUnmetPrereq s st c with
      | some p => (s, false, "Prerequisite not met: " ++ p.name)
      | none =>
        let rid := s.next_rid
        let reg : Registration :=
          { student_id := sid
            course_code := c.course_code
            course_credits := c.credits
            semester := sem
            grade := none
            status := "Active" }
        let res := Course.enroll_student c rid
        let s1 : SysState :=
          { s with
            reg_heap := s.reg_heap ++ [(rid, reg)]
            next_rid := rid + 1
            courses := aupdate s.courses ccode res.1 }
        if res.2 then
          ({ s1 with
             students := aupdate s.students sid (st.enroll_course rid reg)
             registrations := s.registrations ++ [rid] },
           true, "Successfully registered for course")
        else (s1, false, "Failed to register for course")
  | _, _ => (s, false, "")

/-- `RegistrationSystem.drop_course`. -/
def RegistrationSystem.drop_course (s : SysState) (sid ccode : String) :
    SysState × Bool × String :=
  match alookup s.students sid, alookup s.courses ccode with
  | some st, some c =>
    match findDropReg s st c.course_code with
    | none => (s, false, "Not enrolled in this course")
    | some (rid, r) =>
      let r1 := r.drop
      ({ s with
         reg_heap := aupdate s.reg_heap rid r1
         courses := aupdate s.courses ccode (c.drop_student rid)
         students := aupdate s.students sid (st.drop_course rid r1) },
       true, "Successfully dropped course")
  | _, _ => (s, false, "")

/-- `RegistrationSystem.assign_grade`; `teaching` is the course-identity
list `professor._teaching_courses` of the professor object passed in, and
the authorization test is `Professor.assign_grade`'s
`registration.course in self._teaching_courses`. -/
def RegistrationSystem.assign_grade (s : SysState) (teaching : List String)
    (sid ccode : String) (g : Grade) : SysState × Bool × String :=
  match alookup s.students sid, alookup s.courses ccode with
  | some st, some c =>
    match findGradeReg s st c.course_code with
    | none => (s, false, "Student not enrolled in course")
    | some (rid, r) =>
      if teaching.contains r.course_code then
        ({ s with reg_heap := aupdate s.reg_heap rid (r.set_grade g) },
         true, "Grade assigned successfully")
      else (s, false, "Professor not authorized to grade this course")
  | _, _ => (s, false, "")

/-- `Registrar.update_course_status`: `course.status = status` (the manual
override). -/
def Registrar.update_course_status (s : SysState) (ccode : String)
    (v : CourseStatus) : SysState :=
  match alookup s.courses ccode with
  | some c => { s with courses := aupdate s.courses ccode { c with status := v } }
  | none => s

/-- The `grade_points` dictionary of `Student.calculate_gpa`; absent keys
(INCOMPLETE, WITHDRAWAL, NOT_GRADED) are `none`.  The float literals are
modelled as the exact rationals they denote. -/
def grade_points : Grade → Option ℚ
  | Grade.A_PLUS => some 4
  | Grade.A => some 4
  | Grade.A_MINUS => some (37 / 10)
  | Grade.B_PLUS => some (33 / 10)
  | Grade.B => some 3
  | Grade.B_MINUS => some (27 / 10)
  | Grade.C_PLUS => some (23 / 10)
  | Grade.C => some 2
  | Grade.C_MINUS => some (17 / 10)
  | Grade.D => some 1
  | Grade.F => some 0
  | Grade.INCOMPLETE => none
  | Grade.WITHDRAWAL => none
  | Grade.NOT_GRADED => none

/-- One iteration of the `Student.calculate_gpa` loop: when the enrollment
resolves to a registration whose grade is set and is a key of
`grade_points`, add `grade_points[grade] * credits` to the point total and
`credits` to the credit total. -/
def gpaAccum (s : SysState) (acc : ℚ × Nat) (rid : Nat) : ℚ × Nat :=
  match alookup s.reg_heap rid with
  | some r =>
    match r.grade with
    | some g =>
      match grade_points g with
      | some pts => (acc.1 + pts * r.course_credits, acc.2 + r.course_credits)
      | none => acc
    | none => acc
  | none => acc

/-- `Student.calculate_gpa`: fold the loop over `self._enrollments` and
divide points by credits, defaulting to 0 when no credits accumulated. -/
def Student.calculate_gpa (s : SysState) (st : Student) : ℚ :=
  let acc := st.enrollments.foldl (gpaAccum s) ((0 : ℚ), (0 : Nat))
  if 0 < acc.2 then acc.1 / (acc.2 : ℚ) else 0

/-! ## Definitions written from the specification text

`specGradePoints`, `specIncluded` and `specCalculateGPA` transcribe §4.4 of
the specification (not the source): the grade→point table, the exclusion of
INCOMPLETE / WITHDRAWAL / NOT_GRADED / ungraded registrations from
numerator and denominator, and `GPA = Σ(points×credits) / Σ(credits)` with
default `0.0`.  They exist to be compared to the source-derived
`Student.calculate_gpa`. -/

/-- The specification's grade→point mapping
`{A+:4.0, A:4.0, A-:3.7, B+:3.3, B:3.0, B-:2.7, C+:2.3, C:2.0, C-:1.7, D:1.0, F:0.0}`. -/
def specGradePoints : Grade → Option ℚ
  | Grade.A_PLUS => some 4
  | Grade.A => some 4
  | Grade.A_MINUS => some (37 / 10)
  | Grade.B_PLUS => some (33 / 10)
  | Grade.B => some 3
  | Grade.B_MINUS => some (27 / 10)
  | Grade.C_PLUS => some (23 / 10)
  | Grade.C => some 2
  | Grade.C_MINUS => some (17 / 10)
  | Grade.D => some 1
  | Grade.F => some 0
  | _ => none

/-- The specification's inclusion rule: a registration contributes
`(points, credits)` unless its grade is INCOMPLETE, WITHDRAWAL, NOT_GRADED
or unset. -/
def specIncluded (r : Registration) : Option (ℚ × Nat) :=
  match r.grade with
  | none => none
  | some g =>
    if g = Grade.INCOMPLETE ∨ g = Grade.WITHDRAWAL ∨ g = Grade.NOT_GRADED then
      none
    else (specGradePoints g).map (fun pts => (pts, r.course_credits))

/-- The specification's GPA formula:
`Σ(points × credits) / Σ(credits)` over the included registrations, `0` when
the denominator is `0`. -/
def specCalculateGPA (s : SysState) (st : Student) : ℚ :=
  let included := st.enrollments.filterMap
    (fun rid => (alookup s.reg_heap rid).bind specIncluded)
  let den : Nat := (included.map (fun q => q.2)).sum
  if den = 0 then 0
  else ((included.map (fun q => q.1 * (q.2 : ℚ))).sum) / (den : ℚ)

/-! ## Invariant, reachability, and concrete sample states -/

/-- The status/count invariant of the specification: `status == FULL`
exactly when the enrollment count has reached capacity, unless the course
is CLOSED. -/
def CourseInv (c : Course) : Prop :=
  (c.status = CourseStatus.FULL ↔
    c.max_capacity ≤ c.enrolled_students.length)
  ∨ c.status = CourseStatus.CLOSED

instance (c : Course) : Decidable (CourseInv c) := by
  unfold CourseInv
  infer_instance

/-- States reachable from `s0` through `register` and `drop` calls only
(no registrar status override). -/
inductive Reach (s0 : SysState) : SysState → Prop where
  | refl : Reach s0 s0
  | regStep {t : SysState} (sid ccode sem : String) : Reach s0 t →
      Reach s0 (RegistrationSystem.register_student_for_course t sid ccode sem).1
  | dropStep {t : SysState} (sid ccode : String) : Reach s0 t →
      Reach s0 (RegistrationSystem.drop_course t sid ccode).1

/-- A student object with no enrollments. -/
def stEmpty (uid : String) : Student :=
  { user_id := uid, enrollments := [], total_credits := 0 }

/-- A freshly constructed course: OPEN, nobody enrolled, no prerequisites. -/
def freshCourse (code : String) (cap : Nat) : Course :=
  { course_code := code
    name := "Course " ++ code
    credits := 3
    max_capacity := cap
    status := CourseStatus.OPEN
    enrolled_students := []
    prerequisites := [] }

/-- Sample system: students A and B, one fresh capacity-1 course C. -/
def sampleS0 : SysState :=
  { students := [("A", stEmpty "A"), ("B", stEmpty "B")]
    courses := [("C", freshCourse "C" 1)]
    reg_heap := []
    registrations := []
    next_rid := 1001 }

/-- `sampleS0` after student A registers for C (course becomes FULL). -/
def s0afterA : SysState :=
  (RegistrationSystem.register_student_for_course sampleS0 "A" "C" "Fall").1

/-- `s0afterA` after a registrar forces the full course back to OPEN. -/
def s0forcedOpen : SysState :=
  Registrar.update_course_status s0afterA "C" CourseStatus.OPEN

/-- The course object stored under "C" in `s0afterA`: FULL at capacity 1. -/
def cFullSample : Course :=
  { course_code := "C"
    name := "Course C"
    credits := 3
    max_capacity := 1
    status := CourseStatus.FULL
    enrolled_students := [1001]
    prerequisites := [] }

/-- The course object stored under "C" in `s0forcedOpen`: forced OPEN while
still at capacity. -/
def cForcedOpen : Course :=
  { cFullSample with status := CourseStatus.OPEN }

/-- The student object stored under "A" in `s0afterA`. -/
def stA01 : Student := { user_id := "A", enrollments := [1001], total_credits := 3 }

/-- The registration object 1001 of `s0afterA`. -/
def regA01 : Registration :=
  { student_id := "A"
    course_code := "C"
    course_credits := 3
    semester := "Fall"
    grade := none
    status := "Active" }

/-- A CLOSED course with two enrollments. -/
def closedCourseSample : Course :=
  { course_code := "D"
    name := "Course D"
    credits := 3
    max_capacity := 5
    status := CourseStatus.CLOSED
    enrolled_students := [3, 4]
    prerequisites := [] }

/-- Sample system holding only the CLOSED course. -/
def closedS : SysState :=
  { students := [("A", stEmpty "A")]
    courses := [("D", closedCourseSample)]
    reg_heap := []
    registrations := []
    next_rid := 0 }

/-- Prerequisite reference used by `courseX`. -/
def prereqY : Prereq := { course_code := "Y", name := "Calculus" }

/-- A course whose only prerequisite is Y. -/
def courseX : Course :=
  { course_code := "X"
    name := "Course X"
    credits := 3
    max_capacity := 10
    status := CourseStatus.OPEN
    enrolled_students := []
    prerequisites := [prereqY] }

/-- A completed (B-) registration for course Y. -/
def regYdone : Registration :=
  { student_id := "A"
    course_code := "Y"
    course_credits := 4
    semester := "Spring"
    grade := some Grade.B_MINUS
    status := "Active" }

/-- Student A of the prerequisite scenario, holding registration 11. -/
def stA3 : Student := { user_id := "A", enrollments := [11], total_credits := 4 }

/-- Sample system for the prerequisite scenarios: student A completed Y,
student B completed nothing, course X requires Y. -/
def s3 : SysState :=
  { students := [("A", stA3), ("B", stEmpty "B")]
    courses := [("X", courseX)]
    reg_heap := [(11, regYdone)]
    registrations := [11]
    next_rid := 12 }

/-- A DROPPED registration for course C (grade WITHDRAWAL). -/
def regDroppedC : Registration :=
  { student_id := "A"
    course_code := "C"
    course_credits := 3
    semester := "Fall"
    grade := some Grade.WITHDRAWAL
    status := "Dropped" }

/-- Student A of the grading scenario, holding registration 7. -/
def stA4 : Student := { user_id := "A", enrollments := [7], total_credits := 0 }

/-- Sample system whose student A still holds a DROPPED registration in the
enrollment list (grading scenario). -/
def s4 : SysState :=
  { students := [("A", stA4), ("B", stEmpty "B")]
    courses := [("C", freshCourse "C" 2)]
    reg_heap := [(7, regDroppedC)]
    registrations := [7]
    next_rid := 8 }

/-- Student A of the GPA zero scenario, holding registration 5. -/
def stA7 : Student := { user_id := "A", enrollments := [5], total_credits := 3 }

/-- Sample system whose student A has only a WITHDRAWAL-graded registration
(GPA zero scenario). -/
def s7 : SysState :=
  { students := [("A", stA7)]
    courses := []
    reg_heap := [(5, regDroppedC)]
    registrations := [5]
    next_rid := 8 }

/-! ## Association-list lemmas -/

theorem alookup_cons {κ α : Type} [BEq κ] (p : κ × α) (l : List (κ × α))
    (k : κ) :
    alookup (p :: l) k = if p.1 == k then some p.2 else alookup l k := by
  cases hb : p.1 == k <;> simp [alookup, List.find?_cons, hb]

theorem mem_of_alookup {κ α : Type} [BEq κ] [LawfulBEq κ]
    {l : List (κ × α)} {k : κ} {v : α} (h : alookup l k = some v) :
    (k, v) ∈ l := by
  induction l with
  | nil => simp [alookup] at h
  | cons p t ih =>
    rw [alookup_cons] at h
    by_cases hb : p.1 == k
    · simp [hb] at h
      have hk : p.1 = k := eq_of_beq hb
      cases p
      simp_all
    · simp [hb] at h
      right
      exact ih h

theorem alookup_aupdate_self {κ α : Type} [BEq κ] [LawfulBEq κ]
    {l : List (κ × α)} {k : κ} {w : α} (v : α)
    (h : alookup l k = some w) :
    alookup (aupdate l k v) k = some v := by
  induction l with
  | nil => simp [alookup] at h
  | cons p t ih =>
    rw [alookup_cons] at h
    by_cases hb : p.1 == k
    · simp [aupdate, hb, alookup_cons]
    · simp [hb] at h
      simpa [aupdate, hb, alookup_cons] using ih h

theorem alookup_aupdate_ne {κ α : Type} [BEq κ] [LawfulBEq κ]
    (l : List (κ × α)) (k k' : κ) (v : α) (h : k' ≠ k) :
    alookup (aupdate l k v) k' = alookup l k' := by
  induction l with
  | nil => rfl
  | cons p t ih =>
    by_cases hb : p.1 == k
    · have hp : p.1 = k := eq_of_beq hb
      have hk : (k == k') = false := by
        simp
        exact fun he => h he.symm
      have hk2 : (p.1 == k') = false := by
        simp [hp]
        exact fun he => h he.symm
      simp [aupdate, hb, alookup_cons, hk, hk2] at ih ⊢
      exact ih
    · simp [aupdate, hb, alookup_cons] at ih ⊢
      by_cases hb2 : p.1 == k'
      · simp [hb2]
      · simp [hb2]
        exact ih

theorem mem_aupdate {κ α : Type} [BEq κ] {l : List (κ × α)} {k : κ}
    {v : α} {p : κ × α} (h : p ∈ aupdate l k v) : p ∈ l ∨ p = (k, v) := by
  unfold aupdate at h
  rcases List.mem_map.mp h with ⟨q, hq, he⟩
  by_cases hb : q.1 == k
  · simp [hb] at he
    right
    exact he.symm
  · simp [hb] at he
    left
    exact he ▸ hq

theorem aupdate_of_alookup_none {κ α : Type} [BEq κ]
    {l : List (κ × α)} {k : κ} (v : α) (h : alookup l k = none) :
    aupdate l k v = l := by
  induction l with
  | nil => rfl
  | cons p t ih =>
    rw [alookup_cons] at h
    by_cases hb : p.1 == k
    · simp [hb] at h
    · simp [hb] at h
      simp [aupdate, hb] at ih ⊢
      exact ih h

theorem alookup_append_some {κ α : Type} [BEq κ]
    {l1 l2 : List (κ × α)} {k : κ} {v : α} (h : alookup l1 k = some v) :
    alookup (l1 ++ l2) k = some v := by
  induction l1 with
  | nil => simp [alookup] at h
  | cons p t ih =>
    rw [alookup_cons] at h
    by_cases hb : p.1 == k
    · simp [hb] at h
      simp [List.cons_append, alookup_cons, hb, h]
    · simp [hb] at h
      simp [List.cons_append, alookup_cons, hb]
      exact ih h

theorem alookup_append_none {κ α : Type} [BEq κ]
    {l1 l2 : List (κ × α)} {k : κ} (h : alookup l1 k = none) :
    alookup (l1 ++ l2) k = alookup l2 k := by
  induction l1 with
  | nil => simp
  | cons p t ih =>
    rw [alookup_cons] at h
    by_cases hb : p.1 == k
    · simp [hb] at h
    · simp [hb] at h
      simp [List.cons_append, alookup_cons, hb]
      exact ih h

theorem alookup_snoc_self {κ α : Type} [BEq κ] [LawfulBEq κ]
    {l : List (κ × α)} {k : κ} (v : α) (h : alookup l k = none) :
    alookup (l ++ [(k, v)]) k = some v := by
  rw [alookup_append_none h]
  simp [alookup_cons]

/-! ## findSome? lemmas -/

theorem findSome?_eq_none_iff {α β : Type} (f : α → Option β)
    (l : List α) :
    l.findSome? f = none ↔ ∀ a ∈ l, f a = none := by
  induction l with
  | nil => simp
  | cons a t ih =>
    rw [List.findSome?_cons]
    cases hf : f a with
    | some b => simp [hf]
    | none => simp [hf, ih]

theorem findSome?_first {α β : Type} (f : α → Option β)
    (l1 l2 : List α) (a : α) (b : β)
    (h1 : ∀ x ∈ l1, f x = none) (h2 : f a = some b) :
    (l1 ++ a :: l2).findSome? f = some b := by
  induction l1 with
  | nil => simp [List.findSome?_cons, h2]
  | cons x t ih =>
    have hx : f x = none := h1 x (by simp)
    rw [List.cons_append, List.findSome?_cons, hx]
    exact ih (fun y hy => h1 y (by simp [hy]))

/-! ## Characterizations of the search helpers -/

/-- A course code is in `student_completed_courses` exactly when some
enrollment of the student resolves to a registration for that course whose
grade is set and is not F, INCOMPLETE or WITHDRAWAL. -/
theorem mem_completedCourseCodes_iff (s : SysState) (st : Student)
    (code : String) :
    code ∈ completedCourseCodes s st ↔
      ∃ rid ∈ st.enrollments, ∃ r, alookup s.reg_heap rid = some r ∧
        r.course_code = code ∧ ∃ g, r.grade = some g ∧
          ¬(g = Grade.F ∨ g = Grade.INCOMPLETE ∨ g = Grade.WITHDRAWAL) := by
  unfold completedCourseCodes
  rw [List.mem_filterMap]
  constructor
  · rintro ⟨rid, hrid, hf⟩
    refine ⟨rid, hrid, ?_⟩
    cases hr : alookup s.reg_heap rid with
    | none => rw [hr] at hf; simp at hf
    | some r =>
      rw [hr] at hf
      cases hg : r.grade with
      | none => simp [hg] at hf
      | some g =>
        by_cases hbad : g = Grade.F ∨ g = Grade.INCOMPLETE ∨ g = Grade.WITHDRAWAL
        · simp [hg, hbad] at hf
        · simp [hg, hbad] at hf
          exact ⟨r, rfl, hf, g, hg, hbad⟩
  · rintro ⟨rid, hrid, r, hr, hcode, g, hg, hbad⟩
    exact ⟨rid, hrid, by simp [hr, hg, hbad, hcode]⟩

/-- What a successful `findDropReg` search guarantees: the identity is one
of the student's enrollments and resolves to an ACTIVE registration for
the course. -/
theorem findDropReg_some (s : SysState) (st : Student) (code : String)
    (rid : Nat) (r : Registration)
    (h : findDropReg s st code = some (rid, r)) :
    rid ∈ st.enrollments ∧ alookup s.reg_heap rid = some r ∧
      r.course_code = code ∧ r.status = "Active" := by
  unfold findDropReg at h
  rcases List.exists_of_findSome?_eq_some h with ⟨rid0, hmem, hf⟩
  cases hr : alookup s.reg_heap rid0 with
  | none => rw [hr] at hf; simp at hf
  | some r0 =>
    rw [hr] at hf
    by_cases hc : r0.course_code = code ∧ r0.status = "Active"
    · simp [hc] at hf
      rcases hf with ⟨h1, h2⟩
      subst h1; subst h2
      exact ⟨hmem, hr, hc⟩
    · simp [hc] at hf

/-- `findDropReg` fails exactly when no enrollment of the student resolves
to an ACTIVE registration for the course. -/
theorem findDropReg_eq_none_iff (s : SysState) (st : Student)
    (code : String) :
    findDropReg s st code = none ↔
      ∀ rid ∈ st.enrollments, ∀ r, alookup s.reg_heap rid = some r →
        ¬(r.course_code = code ∧ r.status = "Active") := by
  unfold findDropReg
  rw [findSome?_eq_none_iff]
  constructor
  · intro h rid hrid r hr hc
    have := h rid hrid
    rw [hr] at this
    simp [hc] at this
  · intro h rid hrid
    cases hr : alookup s.reg_heap rid with
    | none => simp
    | some r =>
      have := h rid hrid r hr
      simp [this]

/-- `findGradeReg` fails exactly when no enrollment of the student resolves
to a registration for the course, whatever its status. -/
theorem findGradeReg_eq_none_iff (s : SysState) (st : Student)
    (code : String) :
    findGradeReg s st code = none ↔
      ∀ rid ∈ st.enrollments, ∀ r, alookup s.reg_heap rid = some r →
        r.course_code ≠ code := by
  unfold findGradeReg
  rw [findSome?_eq_none_iff]
  constructor
  · intro h rid hrid r hr hc
    have := h rid hrid
    rw [hr] at this
    simp [hc] at this
  · intro h rid hrid
    cases hr : alookup s.reg_heap rid with
    | none => simp
    | some r =>
      have := h rid hrid r hr
      simp [this]

/-- First-match description of `findGradeReg`: the scan returns the first
enrollment resolving to a registration with the right course code, with no
condition on the registration's status. -/
theorem findGradeReg_first (s : SysState) (st : Student) (code : String)
    (l1 l2 : List Nat) (rid : Nat) (r : Registration)
    (hsplit : st.enrollments = l1 ++ rid :: l2)
    (hskip : ∀ rid1 ∈ l1, ∀ r1, alookup s.reg_heap rid1 = some r1 →
      r1.course_code ≠ code)
    (hr : alookup s.reg_heap rid = some r) (hcode : r.course_code = code) :
    findGradeReg s st code = some (rid, r) := by
  unfold findGradeReg
  rw [hsplit]
  apply findSome?_first
  · intro x hx
    cases hx1 : alookup s.reg_heap x with
    | none => simp
    | some r1 =>
      have := hskip x hx r1 hx1
      simp [this]
  · simp [hr, hcode]

/-- `hasActiveReg` is false exactly when no enrollment of the student
resolves to an ACTIVE registration for the course. -/
theorem hasActiveReg_eq_false_iff (s : SysState) (st : Student)
    (code : String) :
    hasActiveReg s st code = false ↔
      ∀ rid ∈ st.enrollments, ∀ r, alookup s.reg_heap rid = some r →
        ¬(r.course_code = code ∧ r.status = "Active") := by
  unfold hasActiveReg
  rw [List.any_eq_false]
  constructor
  · intro h rid hrid r hr hc
    have hco := h rid hrid
    apply hco
    simp [regActiveFor, hr, hc.1, hc.2]
  · intro h rid hrid hact
    unfold regActiveFor at hact
    cases hr : alookup s.reg_heap rid with
    | none => rw [hr] at hact; simp at hact
    | some r =>
      rw [hr] at hact
      simp at hact
      exact h rid hrid r hr hact

/-- `firstUnmetPrereq` succeeds on the first prerequisite, in list order,
whose course code is not among the student's completed courses. -/
theorem firstUnmetPrereq_first (s : SysState) (st : Student) (c : Course)
    (l1 l2 : List Prereq) (p : Prereq)
    (hsplit : c.prerequisites = l1 ++ p :: l2)
    (hmet : ∀ q ∈ l1, q.course_code ∈ completedCourseCodes s st)
    (hunmet : p.course_code ∉ completedCourseCodes s st) :
    firstUnmetPrereq s st c = some p := by
  unfold firstUnmetPrereq
  rw [hsplit]
  rw [List.find?_append]
  have h1 : l1.find?
      (fun q => ! (completedCourseCodes s st).contains q.course_code) =
      none := by
    rw [List.find?_eq_none]
    intro q hq
    simp [List.elem_iff] at *
    exact hmet q hq
  rw [h1]
  have hp : (! (completedCourseCodes s st).contains p.course_code) = true := by
    simp [List.elem_iff]
    exact hunmet
  simp [List.find?_cons, hp, hunmet]

/-- `firstUnmetPrereq` fails exactly when every prerequisite's course code
is among the student's completed courses. -/
theorem firstUnmetPrereq_eq_none_iff (s : SysState) (st : Student)
    (c : Course) :
    firstUnmetPrereq s st c = none ↔
      ∀ p ∈ c.prerequisites, p.course_code ∈ completedCourseCodes s st := by
  unfold firstUnmetPrereq
  rw [List.find?_eq_none]
  constructor
  · intro h p hp
    have := h p hp
    simpa [List.elem_iff] using this
  · intro h p hp
    simp [List.elem_iff]
    exact h p hp

/-! ## Preservation of the status/count invariant -/

theorem enroll_student_CourseInv (c : Course) (rid : Nat)
    (h : CourseInv c) : CourseInv (Course.enroll_student c rid).1 := by
  unfold CourseInv at h ⊢
  unfold Course.enroll_student
  cases hs : c.status with
  | CLOSED => simp [hs]
  | FULL =>
    rw [hs] at h
    simp at h
    have hfull : c.is_full = true := by
      simp [Course.is_full, Course.get_current_enrollment]
      omega
    simp [hs, hfull]
    omega
  | OPEN =>
    rw [hs] at h
    simp at h
    have hlt : ¬ c.max_capacity ≤ c.enrolled_students.length := by omega
    by_cases hf1 : c.max_capacity ≤ c.enrolled_students.length + 1
    · simp [hs, hlt, Course.is_full, Course.get_current_enrollment, hf1]
    · simp [hs, hlt, Course.is_full, Course.get_current_enrollment, hf1]

theorem drop_student_CourseInv (c : Course) (rid : Nat)
    (h : CourseInv c) : CourseInv (Course.drop_student c rid) := by
  unfold CourseInv at h ⊢
  unfold Course.drop_student
  by_cases hmem : rid ∈ c.enrolled_students
  · have hlen : (c.enrolled_students.erase rid).length =
        c.enrolled_students.length - 1 := List.length_erase_of_mem hmem
    cases hs : c.status with
    | CLOSED =>
      simp [hs, hmem]
    | OPEN =>
      rw [hs] at h
      simp at h
      simp [hs, hmem, Course.is_full, Course.get_current_enrollment]
      omega
    | FULL =>
      rw [hs] at h
      simp at h
      by_cases hf1 : c.max_capacity ≤ (c.enrolled_students.erase rid).length
      · have hc2 : ¬ (c.enrolled_students.length - 1 < c.max_capacity) := by
          omega
        simp [hs, hmem, Course.is_full, Course.get_current_enrollment, hc2]
        omega
      · have hc2 : c.enrolled_students.length - 1 < c.max_capacity := by
          omega
        simp [hs, hmem, Course.is_full, Course.get_current_enrollment, hc2]
  · simpa [Course.drop_student, hmem] using h

theorem register_preserves_inv (s : SysState) (sid ccode sem : String)
    (h : ∀ p ∈ s.courses, CourseInv p.2) :
    ∀ p ∈ (RegistrationSystem.register_student_for_course s sid ccode sem).1.courses,
      CourseInv p.2 := by
  unfold RegistrationSystem.register_student_for_course
  cases hst : alookup s.students sid with
  | none => cases hco : alookup s.courses ccode <;> simpa using h
  | some st =>
    cases hco : alookup s.courses ccode with
    | none => simpa using h
    | some c =>
      by_cases h1 : c.status = CourseStatus.CLOSED
      · simpa [h1] using h
      by_cases h2 : c.status = CourseStatus.FULL
      · simpa [h1, h2] using h
      by_cases h3 : hasActiveReg s st c.course_code
      · simpa [h1, h2, h3] using h
      cases hpre : firstUnmetPrereq s st c with
      | some p => simpa [h1, h2, h3, hpre] using h
      | none =>
        have hcinv : CourseInv c := h (ccode, c) (mem_of_alookup hco)
        have hres : CourseInv (Course.enroll_student c s.next_rid).1 :=
          enroll_student_CourseInv c s.next_rid hcinv
        by_cases hok : (Course.enroll_student c s.next_rid).2
        · simp [h1, h2, h3, hpre, hok]
          intro a b hp
          rcases mem_aupdate hp with hmem | heq
          · exact h (a, b) hmem
          · rw [Prod.mk.injEq] at heq
            rw [heq.2]
            exact hres
        · simp [h1, h2, h3, hpre, hok]
          intro a b hp
          rcases mem_aupdate hp with hmem | heq
          · exact h (a, b) hmem
          · rw [Prod.mk.injEq] at heq
            rw [heq.2]
            exact hres

theorem drop_preserves_inv (s : SysState) (sid ccode : String)
    (h : ∀ p ∈ s.courses, CourseInv p.2) :
    ∀ p ∈ (RegistrationSystem.drop_course s sid ccode).1.courses,
      CourseInv p.2 := by
  unfold RegistrationSystem.drop_course
  cases hst : alookup s.students sid with
  | none => cases hco : alookup s.courses ccode <;> simpa using h
  | some st =>
    cases hco : alookup s.courses ccode with
    | none => simpa using h
    | some c =>
      cases hfind : findDropReg s st c.course_code with
      | none => simpa [hfind] using h
      | some pr =>
        have hcinv : CourseInv c := h (ccode, c) (mem_of_alookup hco)
        simp [hfind]
        intro a b hp
        rcases mem_aupdate hp with hmem | heq
        · exact h (a, b) hmem
        · rw [Prod.mk.injEq] at heq
          rw [heq.2]
          exact drop_student_CourseInv c pr.1 hcinv

/-- Effect of `Course.drop_student` when the registration is in the
enrolled list: the registration leaves the list and FULL reverts to OPEN
exactly when the count falls below capacity. -/
theorem drop_student_mem (c : Course) (rid : Nat)
    (hmem : rid ∈ c.enrolled_students) :
    (c.drop_student rid).enrolled_students = c.enrolled_students.erase rid ∧
    (c.drop_student rid).status =
      (if c.status = CourseStatus.FULL ∧
          (c.enrolled_students.erase rid).length < c.max_capacity
        then CourseStatus.OPEN else c.status) := by
  unfold Course.drop_student
  have hlen : (c.enrolled_students.erase rid).length =
      c.enrolled_students.length - 1 := List.length_erase_of_mem hmem
  by_cases hfu : c.status = CourseStatus.FULL
  · by_cases hlt : (c.enrolled_students.erase rid).length < c.max_capacity
    · have hlt2 : c.enrolled_students.length - 1 < c.max_capacity := by omega
      simp [Course.is_full, Course.get_current_enrollment, hmem, hfu, hlt2]
    · have hlt2 : ¬ c.enrolled_students.length - 1 < c.max_capacity := by omega
      simp [Course.is_full, Course.get_current_enrollment, hmem, hfu, hlt2]
  · simp [Course.is_full, Course.get_current_enrollment, hmem, hfu]

/-! ## Claim theorems -/

/-- C1: for every course, at every observable point reachable through
register and drop operations (starting from freshly created courses and
with no registrar status override), `status == FULL` if and only if the
active-enrollment count is at least the course's capacity, unless
`status == CLOSED`; and CLOSED is sticky: it is never exited by an enroll
or a drop. -/
theorem register_drop_status_invariant :
    (∀ s0 s : SysState,
      (∀ p ∈ s0.courses, p.2.status = CourseStatus.OPEN ∧
        p.2.enrolled_students = [] ∧ 0 < p.2.max_capacity) →
      Reach s0 s → ∀ p ∈ s.courses, CourseInv p.2) ∧
    (∀ (c : Course) (rid : Nat), c.status = CourseStatus.CLOSED →
      (Course.enroll_student c rid).1.status = CourseStatus.CLOSED ∧
      (Course.drop_student c rid).status = CourseStatus.CLOSED) := by
  constructor
  · intro s0 s h0 hreach
    induction hreach with
    | refl =>
      intro p hp
      rcases h0 p hp with ⟨hst, henr, hcap⟩
      simp [CourseInv, hst, henr]
      omega
    | regStep sid ccode sem ht ih =>
      exact register_preserves_inv _ sid ccode sem ih
    | dropStep sid ccode ht ih =>
      exact drop_preserves_inv _ sid ccode ih
  · intro c rid hcl
    constructor
    · simp [Course.enroll_student, hcl]
    · unfold Course.drop_student
      by_cases hmem : rid ∈ c.enrolled_students
      · simp [hmem, hcl]
      · simp [hmem, hcl]

/-- Witness for C1 at concrete inputs: the invariant after one register
step from `sampleS0`, and stickiness of CLOSED on `closedCourseSample`. -/
theorem register_drop_status_invariant_witness :
    (∀ p ∈ s0afterA.courses, CourseInv p.2) ∧
    ((Course.enroll_student closedCourseSample 5).1.status = CourseStatus.CLOSED ∧
     (Course.drop_student closedCourseSample 5).status = CourseStatus.CLOSED) :=
  ⟨register_drop_status_invariant.1 sampleS0 s0afterA (by decide)
      (Reach.regStep "A" "C" "Fall" Reach.refl),
   register_drop_status_invariant.2 closedCourseSample 5 (by decide)⟩

/-- C8: for every student and every course whose status is CLOSED,
register fails with "Course is closed for registration", creates no
Registration record, and leaves the whole system state (student, course,
registration list, heap) unchanged. -/
theorem register_closed_course (s : SysState) (sid ccode sem : String)
    (st : Student) (c : Course)
    (hs : alookup s.students sid = some st)
    (hc : alookup s.courses ccode = some c)
    (hcl : c.status = CourseStatus.CLOSED) :
    RegistrationSystem.register_student_for_course s sid ccode sem =
      (s, false, "Course is closed for registration") := by
  unfold RegistrationSystem.register_student_for_course
  rw [hs, hc]
  simp [hcl]

/-- Witness for C8: registering for the CLOSED course of `closedS`. -/
theorem register_closed_course_witness :
    RegistrationSystem.register_student_for_course closedS "A" "D" "Fall" =
      (closedS, false, "Course is closed for registration") :=
  register_closed_course closedS "A" "D" "Fall" (stEmpty "A")
    closedCourseSample (by decide) (by decide) (by decide)

/-- C2 (amended): for every student and every course whose status is FULL,
register fails with "Course is full" and changes nothing.  (As originally
stated — quantifying over enrollment count instead of status, in all
states including registrar-forced ones — the claim is refuted by
`register_full_count_counterexample`.) -/
theorem register_full_status (s : SysState) (sid ccode sem : String)
    (st : Student) (c : Course)
    (hs : alookup s.students sid = some st)
    (hc : alookup s.courses ccode = some c)
    (hf : c.status = CourseStatus.FULL) :
    RegistrationSystem.register_student_for_course s sid ccode sem =
      (s, false, "Course is full") := by
  unfold RegistrationSystem.register_student_for_course
  rw [hs, hc]
  simp [hf]

/-- Witness for the amended C2: student B against the FULL course of
`s0afterA`. -/
theorem register_full_status_witness :
    RegistrationSystem.register_student_for_course s0afterA "B" "C" "Spring" =
      (s0afterA, false, "Course is full") :=
  register_full_status s0afterA "B" "C" "Spring" (stEmpty "B") cFullSample
    (by decide) (by decide) (by decide)

/-- Counterexample to C2 as stated: in `s0forcedOpen` — reached by
register, then a registrar forcing the course's status to OPEN — the
active-enrollment count equals the capacity, yet register for student B
fails with "Failed to register for course", not "Course is full". -/
theorem register_full_count_counterexample :
    (∃ c, alookup s0forcedOpen.courses "C" = some c ∧
      c.enrolled_students.length = c.max_capacity) ∧
    (RegistrationSystem.register_student_for_course s0forcedOpen "B" "C" "Fall").2.2 =
      "Failed to register for course" ∧
    (RegistrationSystem.register_student_for_course s0forcedOpen "B" "C" "Fall").2.2 ≠
      "Course is full" ∧
    (RegistrationSystem.register_student_for_course s0forcedOpen "B" "C" "Fall").2.1 =
      false :=
  ⟨⟨cForcedOpen, by decide, by decide⟩, by decide, by decide, by decide⟩

/-- C10: when the four register checks pass (not CLOSED, not FULL, no
duplicate, prerequisites met) but the enrollment count has already reached
capacity, `Course.enroll_student` refuses: register fails with "Failed to
register for course", the Registration object created in the attempt is
referenced by neither the student's enrollment list, nor the course's
enrolled list, nor the system-wide registration list (all three are
unchanged; only the heap grows and the course is marked FULL), and the
scenario contradicts `CourseInv` — so without a registrar status override
it is unreachable. -/
theorem register_failed_fallback (s : SysState) (sid ccode sem : String)
    (st : Student) (c : Course)
    (hs : alookup s.students sid = some st)
    (hc : alookup s.courses ccode = some c)
    (h1 : c.status ≠ CourseStatus.CLOSED)
    (h2 : c.status ≠ CourseStatus.FULL)
    (h3 : hasActiveReg s st c.course_code = false)
    (h4 : firstUnmetPrereq s st c = none)
    (h5 : c.max_capacity ≤ c.enrolled_students.length) :
    RegistrationSystem.register_student_for_course s sid ccode sem =
      ({ s with
         reg_heap := s.reg_heap ++ [(s.next_rid,
           { student_id := sid
             course_code := c.course_code
             course_credits := c.credits
             semester := sem
             grade := none
             status := "Active" })]
         next_rid := s.next_rid + 1
         courses := aupdate s.courses ccode { c with status := CourseStatus.FULL } },
       false, "Failed to register for course") ∧
    (RegistrationSystem.register_student_for_course s sid ccode sem).1.students =
      s.students ∧
    (RegistrationSystem.register_student_for_course s sid ccode sem).1.registrations =
      s.registrations ∧
    (∃ c1, alookup
        (RegistrationSystem.register_student_for_course s sid ccode sem).1.courses
        ccode = some c1 ∧
      c1.enrolled_students = c.enrolled_students ∧
      c1.status = CourseStatus.FULL) ∧
    ¬ CourseInv c := by
  have hful : c.is_full = true := by
    simp [Course.is_full, Course.get_current_enrollment]
    omega
  have hmain : RegistrationSystem.register_student_for_course s sid ccode sem =
      ({ s with
         reg_heap := s.reg_heap ++ [(s.next_rid,
           { student_id := sid
             course_code := c.course_code
             course_credits := c.credits
             semester := sem
             grade := none
             status := "Active" })]
         next_rid := s.next_rid + 1
         courses := aupdate s.courses ccode { c with status := CourseStatus.FULL } },
       false, "Failed to register for course") := by
    unfold RegistrationSystem.register_student_for_course
    rw [hs, hc]
    simp [h1, h2, h3, h4, Course.enroll_student, hful]
  refine ⟨hmain, ?_, ?_, ?_, ?_⟩
  · rw [hmain]
  · rw [hmain]
  · rw [hmain]
    exact ⟨{ c with status := CourseStatus.FULL },
      alookup_aupdate_self _ hc, rfl, rfl⟩
  · intro hinv
    rcases hinv with hiff | hcl
    · exact h2 (hiff.mpr h5)
    · exact h1 hcl

/-- Witness for C10: student B against the forced-OPEN full course of
`s0forcedOpen`. -/
theorem register_failed_fallback_witness :
    RegistrationSystem.register_student_for_course s0forcedOpen "B" "C" "Fall" =
      ({ s0forcedOpen with
         reg_heap := s0forcedOpen.reg_heap ++ [(s0forcedOpen.next_rid,
           { student_id := "B"
             course_code := cForcedOpen.course_code
             course_credits := cForcedOpen.credits
             semester := "Fall"
             grade := none
             status := "Active" })]
         next_rid := s0forcedOpen.next_rid + 1
         courses := aupdate s0forcedOpen.courses "C"
           { cForcedOpen with status := CourseStatus.FULL } },
       false, "Failed to register for course") ∧
    (RegistrationSystem.register_student_for_course s0forcedOpen "B" "C" "Fall").1.students =
      s0forcedOpen.students ∧
    (RegistrationSystem.register_student_for_course s0forcedOpen "B" "C" "Fall").1.registrations =
      s0forcedOpen.registrations ∧
    (∃ c1, alookup
        (RegistrationSystem.register_student_for_course s0forcedOpen "B" "C" "Fall").1.courses
        "C" = some c1 ∧
      c1.enrolled_students = cForcedOpen.enrolled_students ∧
      c1.status = CourseStatus.FULL) ∧
    ¬ CourseInv cForcedOpen :=
  register_failed_fallback s0forcedOpen "B" "C" "Fall" (stEmpty "B")
    cForcedOpen (by decide) (by decide) (by decide) (by decide) (by decide)
    (by decide) (by decide)

/-- C9 (amended): after a successful register, a second register for the
same (student, course) pair with no intervening drop always fails; the
message is "Already enrolled in this course" when the first registration
did not fill the course, but "Course is full" when it did, because the
status checks precede the duplicate check.  Either way the student never
holds two ACTIVE registrations for the same course.  (As originally
stated — second call always says "Already enrolled in this course" — the
claim is refuted by `register_twice_counterexample`.) -/
theorem register_twice_fails (s : SysState) (sid ccode sem1 sem2 : String)
    (st : Student) (c : Course) (s1 : SysState) (m : String)
    (hs : alookup s.students sid = some st)
    (hc : alookup s.courses ccode = some c)
    (hfresh : alookup s.reg_heap s.next_rid = none)
    (h1 : RegistrationSystem.register_student_for_course s sid ccode sem1 =
      (s1, true, m)) :
    (RegistrationSystem.register_student_for_course s1 sid ccode sem2).2.1 =
      false ∧
    (RegistrationSystem.register_student_for_course s1 sid ccode sem2).2.2 =
      (if c.max_capacity ≤ c.enrolled_students.length + 1 then "Course is full"
       else "Already enrolled in this course") := by
  unfold RegistrationSystem.register_student_for_course at h1
  rw [hs, hc] at h1
  by_cases hcl : c.status = CourseStatus.CLOSED
  · simp [hcl] at h1
  by_cases hfu : c.status = CourseStatus.FULL
  · simp [hcl, hfu] at h1
  by_cases hdup : hasActiveReg s st c.course_code
  · simp [hcl, hfu, hdup] at h1
  cases hpre : firstUnmetPrereq s st c with
  | some p => simp [hcl, hfu, hdup, hpre] at h1
  | none =>
    have hop : c.status = CourseStatus.OPEN := by
      cases hx : c.status
      · rfl
      · exact absurd hx hfu
      · exact absurd hx hcl
    by_cases hlt : c.max_capacity ≤ c.enrolled_students.length
    · simp [hcl, hfu, hdup, hpre, Course.enroll_student, hop,
        Course.is_full, Course.get_current_enrollment, hlt] at h1
    by_cases hcap : c.max_capacity ≤ c.enrolled_students.length + 1
    · simp [hcl, hfu, hdup, hpre, Course.enroll_student, hop,
        Course.is_full, Course.get_current_enrollment, hlt, hcap,
        Prod.ext_iff] at h1
      obtain ⟨hs1, hm⟩ := h1
      have ha : alookup s1.students sid = some
          (st.enroll_course s.next_rid
            { student_id := sid
              course_code := c.course_code
              course_credits := c.credits
              semester := sem1
              grade := none
              status := "Active" }) := by
        rw [← hs1]
        exact alookup_aupdate_self _ hs
      have hb : alookup s1.courses ccode = some
          { c with
            enrolled_students := c.enrolled_students ++ [s.next_rid]
            status := CourseStatus.FULL } := by
        rw [← hs1]
        exact alookup_aupdate_self _ hc
      unfold RegistrationSystem.register_student_for_course
      rw [ha, hb]
      simp [hcap]
    · simp [hcl, hfu, hdup, hpre, Course.enroll_student, hop,
        Course.is_full, Course.get_current_enrollment, hlt, hcap,
        Prod.ext_iff] at h1
      obtain ⟨hs1, hm⟩ := h1
      have ha : alookup s1.students sid = some
          (st.enroll_course s.next_rid
            { student_id := sid
              course_code := c.course_code
              course_credits := c.credits
              semester := sem1
              grade := none
              status := "Active" }) := by
        rw [← hs1]
        exact alookup_aupdate_self _ hs
      have hb : alookup s1.courses ccode = some
          { c with
            enrolled_students := c.enrolled_students ++ [s.next_rid]
            status := CourseStatus.OPEN } := by
        rw [← hs1]
        exact alookup_aupdate_self _ hc
      have hregmem : s.next_rid ∈
          (st.enroll_course s.next_rid
            { student_id := sid
              course_code := c.course_code
              course_credits := c.credits
              semester := sem1
              grade := none
              status := "Active" }).enrollments := by
        unfold Student.enroll_course
        by_cases hin : s.next_rid ∈ st.enrollments
        · simp [hin]
        · simp [hin]
      have hlook : alookup s1.reg_heap s.next_rid = some
          { student_id := sid
            course_code := c.course_code
            course_credits := c.credits
            semester := sem1
            grade := none
            status := "Active" } := by
        rw [← hs1]
        exact alookup_snoc_self _ hfresh
      have hdup2 : hasActiveReg s1
          (st.enroll_course s.next_rid
            { student_id := sid
              course_code := c.course_code
              course_credits := c.credits
              semester := sem1
              grade := none
              status := "Active" }) c.course_code = true := by
        unfold hasActiveReg
        rw [List.any_eq_true]
        refine ⟨s.next_rid, hregmem, ?_⟩
        simp [regActiveFor, hlook]
      unfold RegistrationSystem.register_student_for_course
      rw [ha, hb]
      simp [hcap, hdup2]

/-- Counterexample to C9 as stated: on the capacity-1 course of
`sampleS0`, student A registers successfully and immediately registers
again with no intervening drop; the second call fails, but with
"Course is full", not "Already enrolled in this course". -/
theorem register_twice_counterexample :
    (RegistrationSystem.register_student_for_course sampleS0 "A" "C" "Fall").2.1 =
      true ∧
    (RegistrationSystem.register_student_for_course s0afterA "A" "C" "Fall").2.1 =
      false ∧
    (RegistrationSystem.register_student_for_course s0afterA "A" "C" "Fall").2.2 =
      "Course is full" ∧
    (RegistrationSystem.register_student_for_course s0afterA "A" "C" "Fall").2.2 ≠
      "Already enrolled in this course" :=
  ⟨by decide, by decide, by decide, by decide⟩

/-- Witness for the amended C9 on `sampleS0`: the second registration of
student A fails with the full-course message (capacity 1 was reached). -/
theorem register_twice_fails_witness :
    (RegistrationSystem.register_student_for_course s0afterA "A" "C" "Spring").2.1 =
      false ∧
    (RegistrationSystem.register_student_for_course s0afterA "A" "C" "Spring").2.2 =
      (if (freshCourse "C" 1).max_capacity ≤
          (freshCourse "C" 1).enrolled_students.length + 1 then "Course is full"
       else "Already enrolled in this course") :=
  register_twice_fails sampleS0 "A" "C" "Fall" "Spring" (stEmpty "A")
    (freshCourse "C" 1) s0afterA "Successfully registered for course"
    (by decide) (by decide) (by decide) (by decide)

/-- C3: register succeeds only if every prerequisite of the course is
covered by a registration of the student whose grade is set and is not F,
INCOMPLETE or WITHDRAWAL (an ungraded registration does not count); and
when the closed/full/duplicate checks pass and some prerequisite is unmet,
register fails with "Prerequisite not met: <name>" naming the first unmet
prerequisite in the course's prerequisite order. -/
theorem register_prerequisites :
    (∀ (s : SysState) (sid ccode sem : String) (st : Student) (c : Course),
      alookup s.students sid = some st →
      alookup s.courses ccode = some c →
      (RegistrationSystem.register_student_for_course s sid ccode sem).2.1 =
        true →
      ∀ p ∈ c.prerequisites, ∃ rid ∈ st.enrollments, ∃ r,
        alookup s.reg_heap rid = some r ∧ r.course_code = p.course_code ∧
        ∃ g, r.grade = some g ∧
          ¬(g = Grade.F ∨ g = Grade.INCOMPLETE ∨ g = Grade.WITHDRAWAL)) ∧
    (∀ (s : SysState) (sid ccode sem : String) (st : Student) (c : Course)
        (l1 l2 : List Prereq) (p : Prereq),
      alookup s.students sid = some st →
      alookup s.courses ccode = some c →
      c.status ≠ CourseStatus.CLOSED →
      c.status ≠ CourseStatus.FULL →
      hasActiveReg s st c.course_code = false →
      c.prerequisites = l1 ++ p :: l2 →
      (∀ q ∈ l1, q.course_code ∈ completedCourseCodes s st) →
      p.course_code ∉ completedCourseCodes s st →
      RegistrationSystem.register_student_for_course s sid ccode sem =
        (s, false, "Prerequisite not met: " ++ p.name)) := by
  constructor
  · intro s sid ccode sem st c hs hc hsuc p hp
    have hpre : firstUnmetPrereq s st c = none := by
      unfold RegistrationSystem.register_student_for_course at hsuc
      rw [hs, hc] at hsuc
      by_cases hcl : c.status = CourseStatus.CLOSED
      · simp [hcl] at hsuc
      by_cases hfu : c.status = CourseStatus.FULL
      · simp [hcl, hfu] at hsuc
      by_cases hdup : hasActiveReg s st c.course_code
      · simp [hcl, hfu, hdup] at hsuc
      cases hpre0 : firstUnmetPrereq s st c with
      | some p0 => simp [hcl, hfu, hdup, hpre0] at hsuc
      | none => rfl
    have hmem := (firstUnmetPrereq_eq_none_iff s st c).mp hpre p hp
    exact (mem_completedCourseCodes_iff s st p.course_code).mp hmem
  · intro s sid ccode sem st c l1 l2 p hs hc h1 h2 h3 hsplit hmet hunmet
    have hpre : firstUnmetPrereq s st c = some p :=
      firstUnmetPrereq_first s st c l1 l2 p hsplit hmet hunmet
    unfold RegistrationSystem.register_student_for_course
    rw [hs, hc]
    simp [h1, h2, h3, hpre]

/-- Witness for C3: student A (who completed Y with a B-) satisfies the
prerequisite evidence after a successful registration for X; student B
(no completed courses) fails with the message naming Calculus, the first
unmet prerequisite. -/
theorem register_prerequisites_witness :
    (∀ p ∈ courseX.prerequisites, ∃ rid ∈ stA3.enrollments, ∃ r,
      alookup s3.reg_heap rid = some r ∧ r.course_code = p.course_code ∧
      ∃ g, r.grade = some g ∧
        ¬(g = Grade.F ∨ g = Grade.INCOMPLETE ∨ g = Grade.WITHDRAWAL)) ∧
    RegistrationSystem.register_student_for_course s3 "B" "X" "Fall" =
      (s3, false, "Prerequisite not met: " ++ prereqY.name) :=
  ⟨register_prerequisites.1 s3 "A" "X" "Fall" stA3 courseX (by decide)
      (by decide) (by decide),
   register_prerequisites.2 s3 "B" "X" "Fall" (stEmpty "B") courseX [] []
      prereqY (by decide) (by decide) (by decide) (by decide) (by decide)
      (by decide) (by decide) (by decide)⟩

/-- C4: for a professor who teaches the course, assign_grade finds the
student's registration for the course regardless of its status (first
match on course code only, so a DROPPED registration is found); when no
registration matches it fails with "Student not enrolled in course";
otherwise it sets the registration's grade — whatever the registration's
status and the grade — and returns success with the rest of the state
unchanged. -/
theorem assign_grade_any_status (s : SysState) (teaching : List String)
    (sid ccode : String) (g : Grade) (st : Student) (c : Course)
    (hs : alookup s.students sid = some st)
    (hc : alookup s.courses ccode = some c)
    (hteach : teaching.contains c.course_code = true) :
    ((∀ rid ∈ st.enrollments, ∀ r, alookup s.reg_heap rid = some r →
        r.course_code ≠ c.course_code) →
      RegistrationSystem.assign_grade s teaching sid ccode g =
        (s, false, "Student not enrolled in course")) ∧
    (∀ (l1 l2 : List Nat) (rid : Nat) (r : Registration),
      st.enrollments = l1 ++ rid :: l2 →
      (∀ rid1 ∈ l1, ∀ r1, alookup s.reg_heap rid1 = some r1 →
        r1.course_code ≠ c.course_code) →
      alookup s.reg_heap rid = some r →
      r.course_code = c.course_code →
      RegistrationSystem.assign_grade s teaching sid ccode g =
        ({ s with reg_heap := aupdate s.reg_heap rid (r.set_grade g) },
         true, "Grade assigned successfully")) := by
  constructor
  · intro hnone
    have hfind : findGradeReg s st c.course_code = none :=
      (findGradeReg_eq_none_iff s st c.course_code).mpr hnone
    unfold RegistrationSystem.assign_grade
    rw [hs, hc]
    simp [hfind]
  · intro l1 l2 rid r hsplit hskip hr hcode
    have hfind : findGradeReg s st c.course_code = some (rid, r) :=
      findGradeReg_first s st c.course_code l1 l2 rid r hsplit hskip hr hcode
    unfold RegistrationSystem.assign_grade
    rw [hs, hc]
    simp [hfind, hcode, hteach]
    exact List.elem_iff.mp hteach

/-- Witness for C4: in `s4`, grading finds student A's DROPPED registration
and overwrites its WITHDRAWAL grade with an A, while for student B (no
registration at all) it fails with the not-enrolled message. -/
theorem assign_grade_any_status_witness :
    RegistrationSystem.assign_grade s4 ["C"] "A" "C" Grade.A =
      ({ s4 with reg_heap := aupdate s4.reg_heap 7 (regDroppedC.set_grade Grade.A) },
       true, "Grade assigned successfully") ∧
    regDroppedC.status = "Dropped" ∧
    RegistrationSystem.assign_grade s4 ["C"] "B" "C" Grade.A =
      (s4, false, "Student not enrolled in course") :=
  ⟨(assign_grade_any_status s4 ["C"] "A" "C" Grade.A stA4 (freshCourse "C" 2)
      (by decide) (by decide) (by decide)).2 [] [] 7 regDroppedC (by decide)
      (by intro rid1 h; simp at h) (by decide) (by decide),
   by decide,
   (assign_grade_any_status s4 ["C"] "B" "C" Grade.A (stEmpty "B")
      (freshCourse "C" 2) (by decide) (by decide) (by decide)).1
      (by intro rid h; simp [stEmpty] at h)⟩

/-- C5: drop fails with "Not enrolled in this course" exactly when the
student has no ACTIVE registration for the course, leaving the state
unchanged; otherwise it marks the (first matching ACTIVE) registration
DROPPED with grade WITHDRAWAL, removes it from the course's enrolled list,
subtracts the course's credits from the student's total, reverts FULL to
OPEN exactly when the count drops below capacity, and never changes a
CLOSED status. -/
theorem drop_course_behavior (s : SysState) (sid ccode : String)
    (st : Student) (c : Course)
    (hs : alookup s.students sid = some st)
    (hc : alookup s.courses ccode = some c) :
    ((RegistrationSystem.drop_course s sid ccode).2.1 = false ↔
      ∀ rid ∈ st.enrollments, ∀ r, alookup s.reg_heap rid = some r →
        ¬(r.course_code = c.course_code ∧ r.status = "Active")) ∧
    ((RegistrationSystem.drop_course s sid ccode).2.1 = false →
      RegistrationSystem.drop_course s sid ccode =
        (s, false, "Not enrolled in this course")) ∧
    (∀ (rid : Nat) (r : Registration),
      findDropReg s st c.course_code = some (rid, r) →
      rid ∈ c.enrolled_students →
      (RegistrationSystem.drop_course s sid ccode).2.1 = true ∧
      (RegistrationSystem.drop_course s sid ccode).2.2 =
        "Successfully dropped course" ∧
      (∃ r1, alookup (RegistrationSystem.drop_course s sid ccode).1.reg_heap
          rid = some r1 ∧
        r1.status = "Dropped" ∧ r1.grade = some Grade.WITHDRAWAL) ∧
      (∃ c1, alookup (RegistrationSystem.drop_course s sid ccode).1.courses
          ccode = some c1 ∧
        c1.enrolled_students = c.enrolled_students.erase rid ∧
        c1.status = (if c.status = CourseStatus.FULL ∧
            (c.enrolled_students.erase rid).length < c.max_capacity
          then CourseStatus.OPEN else c.status) ∧
        (c.status = CourseStatus.CLOSED → c1.status = CourseStatus.CLOSED)) ∧
      (∃ st1, alookup (RegistrationSystem.drop_course s sid ccode).1.students
          sid = some st1 ∧
        st1.enrollments = st.enrollments.erase rid ∧
        st1.total_credits = st.total_credits - r.course_credits)) := by
  refine ⟨?_, ?_, ?_⟩
  · cases hfind : findDropReg s st c.course_code with
    | none =>
      have hmain : RegistrationSystem.drop_course s sid ccode =
          (s, false, "Not enrolled in this course") := by
        unfold RegistrationSystem.drop_course
        rw [hs, hc]
        simp [hfind]
      have hAll := (findDropReg_eq_none_iff s st c.course_code).mp hfind
      exact ⟨fun _ => hAll, fun _ => by rw [hmain]⟩
    | some pr =>
      have hmain : RegistrationSystem.drop_course s sid ccode =
          ({ s with
             reg_heap := aupdate s.reg_heap pr.1 pr.2.drop
             courses := aupdate s.courses ccode (c.drop_student pr.1)
             students := aupdate s.students sid (st.drop_course pr.1 pr.2.drop) },
           true, "Successfully dropped course") := by
        unfold RegistrationSystem.drop_course
        rw [hs, hc]
        simp [hfind]
      rcases findDropReg_some s st c.course_code pr.1 pr.2 (by
        rw [hfind]) with ⟨hmem, hr, hcodeEq, hactive⟩
      constructor
      · intro hfa
        rw [hmain] at hfa
        simp at hfa
      · intro hall
        exact (hall pr.1 hmem pr.2 hr ⟨hcodeEq, hactive⟩).elim
  · intro hfail
    cases hfind : findDropReg s st c.course_code with
    | none =>
      unfold RegistrationSystem.drop_course
      rw [hs, hc]
      simp [hfind]
    | some pr =>
      unfold RegistrationSystem.drop_course at hfail
      rw [hs, hc] at hfail
      simp [hfind] at hfail
  · intro rid r hfind hmemc
    rcases findDropReg_some s st c.course_code rid r hfind with
      ⟨hmem, hr, hcodeEq, hactive⟩
    have hmain : RegistrationSystem.drop_course s sid ccode =
        ({ s with
           reg_heap := aupdate s.reg_heap rid r.drop
           courses := aupdate s.courses ccode (c.drop_student rid)
           students := aupdate s.students sid (st.drop_course rid r.drop) },
         true, "Successfully dropped course") := by
      unfold RegistrationSystem.drop_course
      rw [hs, hc]
      simp [hfind]
    rw [hmain]
    refine ⟨rfl, rfl, ?_, ?_, ?_⟩
    · exact ⟨r.drop, alookup_aupdate_self _ hr, rfl, rfl⟩
    · refine ⟨c.drop_student rid, alookup_aupdate_self _ hc, ?_, ?_, ?_⟩
      · exact (drop_student_mem c rid hmemc).1
      · exact (drop_student_mem c rid hmemc).2
      · intro hcl
        rw [(drop_student_mem c rid hmemc).2]
        simp [hcl]
    · refine ⟨st.drop_course rid r.drop, alookup_aupdate_self _ hs, ?_, ?_⟩
      · simp [Student.drop_course, hmem]
      · simp [Student.drop_course, hmem, Registration.drop]

/-- Witness for C5: student A drops the course of `s0afterA` (registration
marked DROPPED with grade WITHDRAWAL, course back to OPEN, credits
subtracted), while student B, with no ACTIVE registration, fails with
"Not enrolled in this course" and an unchanged state. -/
theorem drop_course_behavior_witness :
    ((RegistrationSystem.drop_course s0afterA "A" "C").2.1 = true ∧
     (RegistrationSystem.drop_course s0afterA "A" "C").2.2 =
       "Successfully dropped course" ∧
     (∃ r1, alookup (RegistrationSystem.drop_course s0afterA "A" "C").1.reg_heap
         1001 = some r1 ∧
       r1.status = "Dropped" ∧ r1.grade = some Grade.WITHDRAWAL) ∧
     (∃ c1, alookup (RegistrationSystem.drop_course s0afterA "A" "C").1.courses
         "C" = some c1 ∧
       c1.enrolled_students = cFullSample.enrolled_students.erase 1001 ∧
       c1.status = (if cFullSample.status = CourseStatus.FULL ∧
           (cFullSample.enrolled_students.erase 1001).length <
             cFullSample.max_capacity
         then CourseStatus.OPEN else cFullSample.status) ∧
       (cFullSample.status = CourseStatus.CLOSED →
         c1.status = CourseStatus.CLOSED)) ∧
     (∃ st1, alookup (RegistrationSystem.drop_course s0afterA "A" "C").1.students
         "A" = some st1 ∧
       st1.enrollments = stA01.enrollments.erase 1001 ∧
       st1.total_credits = stA01.total_credits - regA01.course_credits)) ∧
    RegistrationSystem.drop_course s0afterA "B" "C" =
      (s0afterA, false, "Not enrolled in this course") :=
  ⟨(drop_course_behavior s0afterA "A" "C" stA01 cFullSample (by decide)
      (by decide)).2.2 1001 regA01 (by decide) (by decide),
   (drop_course_behavior s0afterA "B" "C" (stEmpty "B") cFullSample
      (by decide) (by decide)).2.1 (by decide)⟩

/-- One loop iteration of `calculate_gpa` agrees with the specification's
per-registration inclusion rule: the source's `grade_points` table is
defined exactly on the grades the specification includes. -/
theorem gpaAccum_eq_specIncluded (s : SysState) (acc : ℚ × Nat) (rid : Nat) :
    gpaAccum s acc rid =
      match (alookup s.reg_heap rid).bind specIncluded with
      | some q => (acc.1 + q.1 * (q.2 : ℚ), acc.2 + q.2)
      | none => acc := by
  unfold gpaAccum
  cases alookup s.reg_heap rid with
  | none => rfl
  | some r =>
    cases hg : r.grade with
    | none => simp [specIncluded, hg]
    | some g =>
      cases g <;> simp [specIncluded, hg, grade_points, specGradePoints]

/-- The `calculate_gpa` fold accumulates exactly the specification's sums
over the included registrations. -/
theorem gpa_foldl (s : SysState) (l : List Nat) (a : ℚ) (b : Nat) :
    l.foldl (gpaAccum s) (a, b) =
      (a + ((l.filterMap
          (fun rid => (alookup s.reg_heap rid).bind specIncluded)).map
        (fun q => q.1 * (q.2 : ℚ))).sum,
       b + ((l.filterMap
          (fun rid => (alookup s.reg_heap rid).bind specIncluded)).map
        (fun q => q.2)).sum) := by
  induction l generalizing a b with
  | nil => simp
  | cons rid t ih =>
    rw [List.foldl_cons, gpaAccum_eq_specIncluded]
    cases hx : (alookup s.reg_heap rid).bind specIncluded with
    | none => simp [hx, ih]
    | some q =>
      simp only [hx, List.filterMap_cons, List.map_cons, List.sum_cons]
      rw [ih]
      rw [Prod.mk.injEq]
      constructor
      · ring
      · omega

/-- C7: `calculate_gpa` equals the specification's formula — registrations
whose grade is INCOMPLETE, WITHDRAWAL, NOT_GRADED or unset are excluded
from numerator and denominator, the remaining ones contribute through the
stated grade→point table, and the result is
`Σ(points×credits)/Σ(credits)`, `0` when nothing is included — and in
particular a student all of whose registrations are excluded gets GPA 0. -/
theorem calculate_gpa_spec :
    (∀ (s : SysState) (st : Student),
      Student.calculate_gpa s st = specCalculateGPA s st) ∧
    (∀ (s : SysState) (st : Student),
      (∀ rid ∈ st.enrollments, ∀ r, alookup s.reg_heap rid = some r →
        r.grade = none ∨ r.grade = some Grade.INCOMPLETE ∨
        r.grade = some Grade.WITHDRAWAL ∨ r.grade = some Grade.NOT_GRADED) →
      Student.calculate_gpa s st = 0) := by
  have hmain : ∀ (s : SysState) (st : Student),
      Student.calculate_gpa s st = specCalculateGPA s st := by
    intro s st
    unfold Student.calculate_gpa specCalculateGPA
    rw [gpa_foldl]
    simp only [zero_add]
    by_cases hD : ((st.enrollments.filterMap
        (fun rid => (alookup s.reg_heap rid).bind specIncluded)).map
      (fun q => q.2)).sum = 0
    · simp [hD]
    · have hpos : 0 < ((st.enrollments.filterMap
          (fun rid => (alookup s.reg_heap rid).bind specIncluded)).map
        (fun q => q.2)).sum := Nat.pos_of_ne_zero hD
      simp [hD, hpos]
  constructor
  · exact hmain
  · intro s st hexc
    rw [hmain]
    unfold specCalculateGPA
    have hnil : st.enrollments.filterMap
        (fun rid => (alookup s.reg_heap rid).bind specIncluded) = [] := by
      rw [List.filterMap_eq_nil_iff]
      intro rid hrid
      cases hr : alookup s.reg_heap rid with
      | none => rfl
      | some r =>
        rcases hexc rid hrid r hr with hg | hg | hg | hg <;>
          simp [specIncluded, hg]
    simp [hnil]

/-- Witness for C7: student A of `s7` (single WITHDRAWAL-graded
registration) has GPA 0, and the refinement instance for the student of
the prerequisite sample. -/
theorem calculate_gpa_spec_witness :
    Student.calculate_gpa s7 stA7 = 0 ∧
    Student.calculate_gpa s3 stA3 = specCalculateGPA s3 stA3 :=
  ⟨calculate_gpa_spec.2 s7 stA7 (by
      intro rid hrid r hr
      have h5 : rid = 5 := by simpa [stA7] using hrid
      subst h5
      have hv : alookup s7.reg_heap 5 = some regDroppedC := by decide
      rw [hv] at hr
      injection hr with h
      subst h
      decide),
   calculate_gpa_spec.1 s3 stA3⟩

/-- Shape of a successful register: when all four checks pass and a seat
is free, register succeeds, appends the fresh registration identity to the
system-wide list and the fresh ACTIVE registration object to the heap, and
bumps the identity counter. -/
theorem register_success_shape (s : SysState) (sid ccode sem : String)
    (st : Student) (c : Course)
    (hs : alookup s.students sid = some st)
    (hc : alookup s.courses ccode = some c)
    (h1 : c.status ≠ CourseStatus.CLOSED)
    (h2 : c.status ≠ CourseStatus.FULL)
    (h3 : hasActiveReg s st c.course_code = false)
    (h4 : firstUnmetPrereq s st c = none)
    (h5 : ¬ c.max_capacity ≤ c.enrolled_students.length) :
    (RegistrationSystem.register_student_for_course s sid ccode sem).2.1 =
      true ∧
    (RegistrationSystem.register_student_for_course s sid ccode sem).2.2 =
      "Successfully registered for course" ∧
    (RegistrationSystem.register_student_for_course s sid ccode sem).1.registrations =
      s.registrations ++ [s.next_rid] ∧
    (RegistrationSystem.register_student_for_course s sid ccode sem).1.reg_heap =
      s.reg_heap ++ [(s.next_rid,
        { student_id := sid
          course_code := c.course_code
          course_credits := c.credits
          semester := sem
          grade := none
          status := "Active" })] ∧
    (RegistrationSystem.register_student_for_course s sid ccode sem).1.next_rid =
      s.next_rid + 1 := by
  have hop : c.status = CourseStatus.OPEN := by
    cases hx : c.status
    · rfl
    · exact absurd hx h2
    · exact absurd hx h1
  unfold RegistrationSystem.register_student_for_course
  rw [hs, hc]
  by_cases hcap : c.max_capacity ≤ c.enrolled_students.length + 1
  · simp [hop, h3, h4, Course.enroll_student, Course.is_full,
      Course.get_current_enrollment, h5, hcap]
  · simp [hop, h3, h4, Course.enroll_student, Course.is_full,
      Course.get_current_enrollment, h5, hcap]

/-- C6: for a (student, course) pair with an ACTIVE registration, on a
non-CLOSED course with a free seat after the drop and all prerequisites
met through other registrations, drop followed by register succeeds and
produces a new Registration distinct from the dropped one, while the
dropped Registration is not erased: it stays in the system-wide
registration list and still resolves, with status DROPPED. -/
theorem drop_then_register (s : SysState) (sid ccode sem : String)
    (st : Student) (c : Course) (rid : Nat) (r : Registration)
    (hs : alookup s.students sid = some st)
    (hc : alookup s.courses ccode = some c)
    (hfind : findDropReg s st c.course_code = some (rid, r))
    (huniq : ∀ rid1 ∈ st.enrollments, ∀ r1, alookup s.reg_heap rid1 = some r1 →
      r1.course_code = c.course_code → r1.status = "Active" → rid1 = rid)
    (hmemc : rid ∈ c.enrolled_students)
    (hncl : c.status ≠ CourseStatus.CLOSED)
    (hseat : (c.enrolled_students.erase rid).length < c.max_capacity)
    (hpre : ∀ p ∈ c.prerequisites, ∃ rid1 ∈ st.enrollments, rid1 ≠ rid ∧
      ∃ r1, alookup s.reg_heap rid1 = some r1 ∧
        r1.course_code = p.course_code ∧ ∃ g, r1.grade = some g ∧
          ¬(g = Grade.F ∨ g = Grade.INCOMPLETE ∨ g = Grade.WITHDRAWAL))
    (hfresh : alookup s.reg_heap s.next_rid = none)
    (hold : rid ∈ s.registrations) :
    (RegistrationSystem.drop_course s sid ccode).2.1 = true ∧
    (RegistrationSystem.register_student_for_course
      (RegistrationSystem.drop_course s sid ccode).1 sid ccode sem).2.1 = true ∧
    s.next_rid ≠ rid ∧
    rid ∈ (RegistrationSystem.register_student_for_course
      (RegistrationSystem.drop_course s sid ccode).1 sid ccode sem).1.registrations ∧
    s.next_rid ∈ (RegistrationSystem.register_student_for_course
      (RegistrationSystem.drop_course s sid ccode).1 sid ccode sem).1.registrations ∧
    (∃ r1, alookup (RegistrationSystem.register_student_for_course
        (RegistrationSystem.drop_course s sid ccode).1 sid ccode sem).1.reg_heap
        rid = some r1 ∧
      r1.status = "Dropped" ∧ r1.grade = some Grade.WITHDRAWAL) ∧
    (∃ r2, alookup (RegistrationSystem.register_student_for_course
        (RegistrationSystem.drop_course s sid ccode).1 sid ccode sem).1.reg_heap
        s.next_rid = some r2 ∧
      r2.status = "Active" ∧ r2.course_code = c.course_code ∧
      r2.student_id = sid) := by
  rcases findDropReg_some s st c.course_code rid r hfind with
    ⟨hmem, hr, hcode, hact⟩
  have hdmain : RegistrationSystem.drop_course s sid ccode =
      ({ s with
         reg_heap := aupdate s.reg_heap rid r.drop
         courses := aupdate s.courses ccode (c.drop_student rid)
         students := aupdate s.students sid (st.drop_course rid r.drop) },
       true, "Successfully dropped course") := by
    unfold RegistrationSystem.drop_course
    rw [hs, hc]
    simp [hfind]
  have hd1 : (RegistrationSystem.drop_course s sid ccode).1 =
      { s with
        reg_heap := aupdate s.reg_heap rid r.drop
        courses := aupdate s.courses ccode (c.drop_student rid)
        students := aupdate s.students sid (st.drop_course rid r.drop) } := by
    rw [hdmain]
  have hne : s.next_rid ≠ rid := by
    intro he
    rw [he] at hfresh
    rw [hfresh] at hr
    exact Option.noConfusion hr
  obtain ⟨hce, hcs⟩ := drop_student_mem c rid hmemc
  have hfields : (c.drop_student rid).course_code = c.course_code ∧
      (c.drop_student rid).credits = c.credits ∧
      (c.drop_student rid).max_capacity = c.max_capacity ∧
      (c.drop_student rid).prerequisites = c.prerequisites := by
    unfold Course.drop_student
    simp [hmemc]
    split
    · exact ⟨rfl, rfl, rfl, rfl⟩
    · exact ⟨rfl, rfl, rfl, rfl⟩
  have hc1op : (c.drop_student rid).status = CourseStatus.OPEN := by
    rw [hcs]
    by_cases hfu : c.status = CourseStatus.FULL
    · simp [hfu, hseat]
    · simp [hfu]
      cases hx : c.status
      · rfl
      · exact absurd hx hfu
      · exact absurd hx hncl
  have hst1e : (st.drop_course rid r.drop).enrollments =
      st.enrollments.erase rid := by
    simp [Student.drop_course, hmem]
  have hheap1 : alookup (aupdate s.reg_heap rid r.drop) rid = some r.drop :=
    alookup_aupdate_self _ hr
  have hheap1n : alookup (aupdate s.reg_heap rid r.drop) s.next_rid = none := by
    rw [alookup_aupdate_ne _ _ _ _ hne]
    exact hfresh
  have hs1 : alookup ({ s with
      reg_heap := aupdate s.reg_heap rid r.drop
      courses := aupdate s.courses ccode (c.drop_student rid)
      students := aupdate s.students sid (st.drop_course rid r.drop) } :
        SysState).students sid = some (st.drop_course rid r.drop) :=
    alookup_aupdate_self _ hs
  have hc1 : alookup ({ s with
      reg_heap := aupdate s.reg_heap rid r.drop
      courses := aupdate s.courses ccode (c.drop_student rid)
      students := aupdate s.students sid (st.drop_course rid r.drop) } :
        SysState).courses ccode = some (c.drop_student rid) :=
    alookup_aupdate_self _ hc
  have hdup1 : hasActiveReg ({ s with
      reg_heap := aupdate s.reg_heap rid r.drop
      courses := aupdate s.courses ccode (c.drop_student rid)
      students := aupdate s.students sid (st.drop_course rid r.drop) } :
        SysState) (st.drop_course rid r.drop)
      (c.drop_student rid).course_code = false := by
    rw [hfields.1]
    rw [hasActiveReg_eq_false_iff]
    intro rid1 hrid1 r1 hr1 hcon
    rw [hst1e] at hrid1
    by_cases h12 : rid1 = rid
    · subst h12
      rw [show alookup (aupdate s.reg_heap rid1 r.drop) rid1 = some r.drop from
          hheap1] at hr1
      injection hr1 with he1
      rw [← he1] at hcon
      exact absurd hcon.2 (by simp [Registration.drop])
    · have hr1s : alookup s.reg_heap rid1 = some r1 := by
        have hx : alookup (aupdate s.reg_heap rid r.drop) rid1 =
            alookup s.reg_heap rid1 := alookup_aupdate_ne _ _ _ _ h12
        rw [← hx]
        exact hr1
      exact h12 (huniq rid1 (List.mem_of_mem_erase hrid1) r1 hr1s hcon.1 hcon.2)
  have hpre1 : firstUnmetPrereq ({ s with
      reg_heap := aupdate s.reg_heap rid r.drop
      courses := aupdate s.courses ccode (c.drop_student rid)
      students := aupdate s.students sid (st.drop_course rid r.drop) } :
        SysState) (st.drop_course rid r.drop) (c.drop_student rid) = none := by
    rw [firstUnmetPrereq_eq_none_iff]
    intro p hp
    rw [hfields.2.2.2] at hp
    rcases hpre p hp with ⟨rid1, hrid1, h12, r1, hr1, hcode1, g, hg, hbad⟩
    rw [mem_completedCourseCodes_iff]
    refine ⟨rid1, ?_, r1, ?_, hcode1, g, hg, hbad⟩
    · rw [hst1e]
      exact (List.mem_erase_of_ne h12).mpr hrid1
    · have hx : alookup (aupdate s.reg_heap rid r.drop) rid1 =
          alookup s.reg_heap rid1 := alookup_aupdate_ne _ _ _ _ h12
      exact hx.trans hr1
  have hnotfull1 : ¬ (c.drop_student rid).max_capacity ≤
      (c.drop_student rid).enrolled_students.length := by
    rw [hfields.2.2.1, hce]
    omega
  have hshape := register_success_shape ({ s with
      reg_heap := aupdate s.reg_heap rid r.drop
      courses := aupdate s.courses ccode (c.drop_student rid)
      students := aupdate s.students sid (st.drop_course rid r.drop) } :
        SysState) sid ccode sem (st.drop_course rid r.drop)
    (c.drop_student rid) hs1 hc1 (by simp [hc1op]) (by simp [hc1op])
    hdup1 hpre1 hnotfull1
  refine ⟨by rw [hdmain], ?_, hne, ?_, ?_, ?_, ?_⟩
  · rw [hd1]
    exact hshape.1
  · rw [hd1, hshape.2.2.1]
    exact List.mem_append_left _ hold
  · rw [hd1, hshape.2.2.1]
    exact List.mem_append_right _ (by simp)
  · rw [hd1, hshape.2.2.2.1]
    exact ⟨r.drop, alookup_append_some hheap1, rfl, rfl⟩
  · rw [hd1, hshape.2.2.2.1]
    exact ⟨_, alookup_snoc_self _ hheap1n, rfl, hfields.1, rfl⟩

/-- Witness for C6: in `s0afterA`, student A drops course C and
re-registers; the new registration gets the fresh identity 1002 while the
dropped registration 1001 stays in the system-wide list with status
DROPPED. -/
theorem drop_then_register_witness :
    (RegistrationSystem.drop_course s0afterA "A" "C").2.1 = true ∧
    (RegistrationSystem.register_student_for_course
      (RegistrationSystem.drop_course s0afterA "A" "C").1 "A" "C"
      "Spring").2.1 = true ∧
    s0afterA.next_rid ≠ 1001 ∧
    1001 ∈ (RegistrationSystem.register_student_for_course
      (RegistrationSystem.drop_course s0afterA "A" "C").1 "A" "C"
      "Spring").1.registrations ∧
    s0afterA.next_rid ∈ (RegistrationSystem.register_student_for_course
      (RegistrationSystem.drop_course s0afterA "A" "C").1 "A" "C"
      "Spring").1.registrations ∧
    (∃ r1, alookup (RegistrationSystem.register_student_for_course
        (RegistrationSystem.drop_course s0afterA "A" "C").1 "A" "C"
        "Spring").1.reg_heap 1001 = some r1 ∧
      r1.status = "Dropped" ∧ r1.grade = some Grade.WITHDRAWAL) ∧
    (∃ r2, alookup (RegistrationSystem.register_student_for_course
        (RegistrationSystem.drop_course s0afterA "A" "C").1 "A" "C"
        "Spring").1.reg_heap s0afterA.next_rid = some r2 ∧
      r2.status = "Active" ∧ r2.course_code = cFullSample.course_code ∧
      r2.student_id = "A") :=
  drop_then_register s0afterA "A" "C" "Spring" stA01 cFullSample 1001 regA01
    (by decide) (by decide) (by decide)
    (by
      intro rid1 h1 r1 hr1 hc1 ha1
      simpa [stA01] using h1)
    (by decide) (by decide) (by decide)
    (by
      intro p hp
      simp [cFullSample] at hp)
    (by decide) (by decide)

end CourseReg
